import Mathlib

/-!
# TypoTamer — verification of the editing and viewport engine

Shallow embedding of the TypoTamer text editor (`src/editor.rs`,
`src/main.rs`).  Rust `usize` arithmetic on cursor and offset coordinates
is saturating in the source (`saturating_add`/`saturating_sub` and explicit
guards), which coincides with `Nat` arithmetic here; truncated subtraction
models `saturating_sub`.  The `Row`, `Document` and `Terminal` modules are
collaborators of the editor whose sources live outside `src/`; the parts
the editor depends on are modelled from the specification and marked as
such in their doc comments.
-/

namespace TypoTamer

/-- Key events, following `termion::event::Key` as consumed by
`Editor::process_key` and `Editor::prompt`.  `ctrl c` is `Key::Ctrl(c)`,
`char c` is `Key::Char(c)`; `endKey` stands for `Key::End`. -/
inductive Key where
  | char (c : Char)
  | ctrl (c : Char)
  | up
  | down
  | left
  | right
  | home
  | endKey
  | pageUp
  | pageDown
  | backspace
  | del
  | esc
  deriving DecidableEq, Repr

/-- `Position` from `editor.rs`: `{x: usize, y: usize}`. -/
structure Position where
  x : Nat
  y : Nat
  deriving DecidableEq, Repr

/-- Modelled from the spec: `Row` (its source file `row.rs` is not under
`src/`) owns a string of characters; `len()` is the character count, not
the byte count. -/
structure Row where
  string : List Char
  deriving DecidableEq, Repr

/-- Character count of a row (the spec's `Row.len`). -/
def Row.len (r : Row) : Nat := r.string.length

/-- Modelled from the spec: `Row.delete(index)` removes the character at
`index` if `index < len`; no-op otherwise. -/
def Row.delete (r : Row) (i : Nat) : Row :=
  ⟨r.string.take i ++ r.string.drop (i + 1)⟩

/-- Modelled from the spec: `Row.append` concatenates another row's content
onto the end (used when a deletion merges two lines). -/
def Row.append (r other : Row) : Row :=
  ⟨r.string ++ other.string⟩

/-- Boolean prefix test on character lists (helper for substring search). -/
def isPre : List Char → List Char → Bool
  | [], _ => true
  | _ :: _, [] => false
  | a :: as, b :: bs => a = b && isPre as bs

/-- First index `≥ i` at which `q` occurs in `hay` (helper for
`Row.find`). -/
def subFind : List Char → List Char → Nat → Option Nat
  | hay, q, i =>
    if isPre q hay then some i
    else
      match hay with
      | [] => none
      | _ :: t => subFind t q (i + 1)

/-- Modelled from the spec: `Row.find(query, start)` with `start = 0`:
linear, case-sensitive substring search returning the character index of
the first match. -/
def Row.find (r : Row) (q : List Char) : Option Nat :=
  subFind r.string q 0

/-- Modelled from the spec: `Document` (its source file `document.rs` is
not under `src/`) owns an ordered sequence of rows, an optional file name,
and a dirty flag. -/
structure Document where
  rows : List Row
  file_name : Option String
  dirty : Bool
  deriving DecidableEq, Repr

/-- `Document.len()`: number of rows. -/
def Document.len (d : Document) : Nat := d.rows.length

/-- `Document.row(y)`: the row at index `y`, or none beyond the end. -/
def Document.row (d : Document) (y : Nat) : Option Row := d.rows.get? y

/-- `Document.is_dirty()`. -/
def Document.is_dirty (d : Document) : Bool := d.dirty

/-- Modelled from the spec: `Document::default()` — no rows, no file name,
not dirty. -/
def Document.default : Document :=
  { rows := [], file_name := none, dirty := false }

/-- Modelled from the spec: `Document.delete(position)` — no-op at true end
of document; if `position.x` is at or past the end of its row, merges the
next row into it when one exists, otherwise delegates to `Row.delete`;
marks dirty. -/
def Document.delete (d : Document) (p : Position) : Document :=
  if h : p.y < d.rows.length then
    let r := d.rows.get ⟨p.y, h⟩
    if r.len ≤ p.x ∧ p.y + 1 < d.rows.length then
      let nxt := d.rows.getD (p.y + 1) ⟨[]⟩
      { d with
        rows := (d.rows.set p.y (r.append nxt)).eraseIdx (p.y + 1),
        dirty := true }
    else
      { d with rows := d.rows.set p.y (r.delete p.x), dirty := true }
  else d

/-- Modelled from the spec: `Document.find(query)` — scans rows in order
from the top for the first row containing `query`; returns the position of
the first character of the first match. -/
def findFrom : List Row → List Char → Nat → Option Position
  | [], _, _ => none
  | r :: rs, q, y =>
    match r.find q with
    | some x => some ⟨x, y⟩
    | none => findFrom rs q (y + 1)

def Document.find (d : Document) (q : List Char) : Option Position :=
  findFrom d.rows q 0

/-- `QUIT_TIMES` from `editor.rs`. -/
def QUIT_TIMES : Nat := 3

/-- Editor state from `editor.rs` (`struct Editor`).  The `Terminal`
handle is represented by its observable dimensions (`Terminal::size()`),
and the status message by its text (`StatusMsg.time` only controls display
fading, which is outside this development). -/
structure EditorS where
  shld_quit : Bool
  cursor_position : Position
  document : Document
  offset : Position
  status_text : String
  quit_times : Nat
  term_width : Nat
  term_height : Nat
  deriving DecidableEq, Repr

/-- Row length at index `y`, 0 when no row exists there (the
`if let Some(row) ... row.len() else 0` idiom of `move_cursor`). -/
def rowLenAt (d : Document) (y : Nat) : Nat :=
  match d.row y with
  | some r => r.len
  | none => 0

/-- `Editor::scroll` from `editor.rs`: minimal containing-window
adjustment of the viewport offset. -/
def scroll (e : EditorS) : EditorS :=
  let x := e.cursor_position.x
  let y := e.cursor_position.y
  let width := e.term_width
  let height := e.term_height
  let oy :=
    if y < e.offset.y then y
    else if e.offset.y + height ≤ y then y - height + 1
    else e.offset.y
  let ox :=
    if x < e.offset.x then x
    else if e.offset.x + width ≤ x then x - width + 1
    else e.offset.x
  { e with offset := ⟨ox, oy⟩ }

/-- The primary move of `Editor::move_cursor`: the `match key` block that
updates `x` and `y` before the final clamp. -/
def moveStep (e : EditorS) (key : Key) : Position :=
  let x := e.cursor_position.x
  let y := e.cursor_position.y
  let height := e.document.len
  let width := rowLenAt e.document y
  match key with
  | Key.up => ⟨x, y - 1⟩
  | Key.down => if y < height then ⟨x, y + 1⟩ else ⟨x, y⟩
  | Key.left =>
      if 0 < x then ⟨x - 1, y⟩
      else if 0 < y then ⟨rowLenAt e.document (y - 1), y - 1⟩
      else ⟨x, y⟩
  | Key.right =>
      if x < width then ⟨x + 1, y⟩
      else if y < height then ⟨0, y + 1⟩
      else ⟨x, y⟩
  | Key.pageUp => ⟨x, if e.term_height < y then y - e.term_height else 0⟩
  | Key.pageDown =>
      ⟨x, if y + e.term_height < height then y + e.term_height else height⟩
  | Key.home => ⟨0, y⟩
  | Key.endKey => ⟨width, y⟩
  | _ => ⟨x, y⟩

/-- `Editor::move_cursor` from `editor.rs`: the primary move followed by
the clamp of `x` to the width of the new row. -/
def moveCursor (e : EditorS) (key : Key) : EditorS :=
  let p := moveStep e key
  let width := rowLenAt e.document p.y
  { e with cursor_position := ⟨if width < p.x then width else p.x, p.y⟩ }

/-- UTF-8 encoded size of a character, as Rust's `char::len_utf8`. -/
def utf8Size (c : Char) : Nat :=
  if c.toNat < 0x80 then 1
  else if c.toNat < 0x800 then 2
  else if c.toNat < 0x10000 then 3
  else 4

/-- UTF-8 byte length of a character list, as Rust's `String::len`. -/
def byteLen (s : List Char) : Nat := (s.map utf8Size).sum

/-- Rust's `String::truncate(new_len)`: keeps the characters that fit in
the first `n` bytes when `n` lands on a character boundary (a no-op when
`n` is at least the byte length); `none` models the panic raised when `n`
falls strictly inside a character's encoding. -/
def truncateBytes : List Char → Nat → Option (List Char)
  | _, 0 => some []
  | [], _ + 1 => some []
  | c :: t, n + 1 =>
    if utf8Size c ≤ n + 1 then
      (truncateBytes t (n + 1 - utf8Size c)).map (c :: ·)
    else none

/-- The Backspace arm of `Editor::prompt`:
`result.truncate(result.len().saturating_sub(1))`, with `result.len()` the
BYTE length of the accumulated string. -/
def promptBackspace (result : List Char) : Option (List Char) :=
  truncateBytes result (byteLen result - 1)

/-- Rust's `char::is_control`: the Unicode `Cc` category,
`U+0000..U+001F` and `U+007F..U+009F`. -/
def isControlChar (c : Char) : Bool :=
  c.toNat < 0x20 || (0x7f ≤ c.toNat && c.toNat ≤ 0x9f)

/-- Outcome of one iteration of the `Editor::prompt` loop on the
accumulated string: continue, break out of the loop, or panic. -/
inductive PromptStep where
  | cont (acc : List Char)
  | exit (acc : List Char)
  | panic
  deriving DecidableEq, Repr

/-- The `match key` block of `Editor::prompt`: Backspace truncates one
byte, `Char('\n')` commits, other printable characters append, Esc clears
and exits, anything else is ignored. -/
def promptKey (acc : List Char) (k : Key) : PromptStep :=
  match k with
  | Key.backspace =>
      match promptBackspace acc with
      | some acc2 => PromptStep.cont acc2
      | none => PromptStep.panic
  | Key.char c =>
      if c = '\n' then PromptStep.exit acc
      else if isControlChar c then PromptStep.cont acc
      else PromptStep.cont (acc ++ [c])
  | Key.esc => PromptStep.exit []
  | _ => PromptStep.cont acc

/-- The loop of `Editor::prompt` driven by a list of key events: each
iteration re-arms the status message with the label and the current
accumulated string, processes one key, and invokes the callback on keys
that do not terminate the loop.  Returns the editor state and the
accumulated string at exit; `none` models a run in which the supplied keys
never end the loop, or the Backspace panic. -/
def promptRunCb (label : String) (cb : EditorS → Key → List Char → EditorS) :
    List Key → List Char → EditorS → Option (EditorS × List Char)
  | [], _, _ => none
  | k :: ks, acc, e =>
    let e0 := { e with status_text := label ++ String.mk acc }
    match promptKey acc k with
    | PromptStep.cont acc2 => promptRunCb label cb ks acc2 (cb e0 k acc2)
    | PromptStep.exit acc2 => some (e0, acc2)
    | PromptStep.panic => none

/-- `Editor::prompt` from `editor.rs`: runs the loop, blanks the status
message, and returns `none` when the accumulated string is empty at
exit. -/
def promptCb (label : String) (cb : EditorS → Key → List Char → EditorS)
    (keys : List Key) (e : EditorS) : Option (EditorS × Option (List Char)) :=
  (promptRunCb label cb keys [] e).map fun p =>
    ({ p.1 with status_text := "" }, if p.2.isEmpty then none else some p.2)

/-- The no-op per-keystroke callback passed by `Editor::save`. -/
def noopCb : EditorS → Key → List Char → EditorS := fun ed _ _ => ed

/-- The warning text re-armed by each confirming Ctrl-Q press. -/
def ctrlQWarning (n : Nat) : String :=
  "WARNING!!! File has unsaved changes. Press Ctrl-Q " ++ toString n
    ++ " more times to quit."

/-- The `Key::Ctrl('q')` arm of `Editor::process_key`: while the document
is dirty and the counter is positive, warn and decrement (returning before
the final `scroll`); otherwise set the quit flag (and fall through to
`scroll`). -/
def processCtrlQ (e : EditorS) : EditorS :=
  if 0 < e.quit_times ∧ e.document.is_dirty then
    { e with
      status_text := ctrlQWarning e.quit_times,
      quit_times := e.quit_times - 1 }
  else scroll { e with shld_quit := true }

/-- Modelled from the spec: `Document.save()` (file I/O, outside `src/`)
writes all rows to `file_name` and clears the dirty flag on success only;
`ok` stands for the I/O outcome. -/
def documentSave (d : Document) (ok : Bool) : Document :=
  if ok then { d with dirty := false } else d

/-- The tail of `Editor::save`: call `Document.save()` and set the
success or failure status message. -/
def finishSave (e : EditorS) (ok : Bool) : EditorS :=
  if ok then
    { e with
      document := documentSave e.document ok,
      status_text := "File saved successfully." }
  else
    { e with
      document := documentSave e.document ok,
      status_text := "Error writing file!" }

/-- `Editor::save` from `editor.rs`, driven by the keys fed to the save-as
prompt and the I/O outcome `ok` of `Document.save()`.  The returned `Bool`
records whether `Document.save()` was invoked; the outer `none` models a
prompt run the supplied keys never finish (or the Backspace panic). -/
def save (e : EditorS) (keys : List Key) (ok : Bool) :
    Option (EditorS × Bool) :=
  if e.document.file_name.isNone then
    match promptCb "Save as: " noopCb keys e with
    | none => none
    | some (e1, newName) =>
      if newName.isNone then
        some ({ e1 with status_text := "Save aborted." }, false)
      else
        some
          (finishSave
            { e1 with
              document := { e1.document with file_name := newName.map String.mk } }
            ok, true)
  else some (finishSave e ok, true)

/-- The live-search per-keystroke callback passed by the `Key::Ctrl('f')`
arm: re-run `Document.find` on the accumulated query and move the cursor
and viewport to the first match found so far. -/
def searchCallback (e : EditorS) (_k : Key) (q : List Char) : EditorS :=
  match e.document.find q with
  | some p => scroll { e with cursor_position := p }
  | none => e

/-- An ASCII apostrophe (used in the search-failure status message). -/
def quoteChar : String := String.mk [Char.ofNat 39]

/-- The search-failure status message of the `Key::Ctrl('f')` arm. -/
def searchFailMsg (q : List Char) : String :=
  "Search for " ++ quoteChar ++ String.mk q ++ quoteChar ++ " failed"

/-- The `Key::Ctrl('f')` arm of `Editor::process_key`, followed by the
unconditional `scroll` at the end of `process_key`.  Driven by the keys
fed to the search prompt; the outer `none` models a prompt run the
supplied keys never finish (or the Backspace panic). -/
def processCtrlF (e : EditorS) (keys : List Key) : Option EditorS :=
  match promptCb "Search: " searchCallback keys e with
  | none => none
  | some (e1, r) =>
    let e2 :=
      match r with
      | some q =>
        match e1.document.find q with
        | some p => scroll { e1 with cursor_position := p }
        | none => { e1 with status_text := searchFailMsg q }
      | none => e1
    some (scroll e2)

/-- The `Key::Backspace` arm of `Editor::process_key`: when not at the
document origin, move the cursor left and delete at the new cursor
position. -/
def processBackspace (e : EditorS) : EditorS :=
  if 0 < e.cursor_position.x ∨ 0 < e.cursor_position.y then
    let e1 := moveCursor e Key.left
    { e1 with document := e1.document.delete e1.cursor_position }
  else e

/-- `Editor::default` from `editor.rs`, with process arguments passed
explicitly (`args` is the full `std::env::args()` vector, program name
first) and `Document::open` — file I/O outside `src/`, modelled from the
spec — represented by its outcome `openResult` per path. -/
def editorDefault (args : List String) (openResult : String → Option Document)
    (tw th : Nat) : EditorS :=
  let helpMsg := "HELP: Ctrl-Q = quit"
  let p : Document × String :=
    if 1 < args.length then
      let filename := args.getD 1 ""
      match openResult filename with
      | some d => (d, helpMsg)
      | none => (Document.default, "ERR: Could not open file: " ++ filename)
    else (Document.default, helpMsg)
  { shld_quit := false
    cursor_position := ⟨0, 0⟩
    document := p.1
    offset := ⟨0, 0⟩
    status_text := p.2
    quit_times := QUIT_TIMES
    term_width := tw
    term_height := th }

/-! ## Sample states used by concrete witnesses -/

/-- A two-row dirty document, `["hello", "world"]`, with no file name. -/
def sampleDoc : Document :=
  { rows := [⟨"hello".data⟩, ⟨"world".data⟩], file_name := none, dirty := true }

/-- An editor on `sampleDoc` with the cursor at the origin and an 80×24
terminal. -/
def sampleE : EditorS :=
  { shld_quit := false
    cursor_position := ⟨0, 0⟩
    document := sampleDoc
    offset := ⟨0, 0⟩
    status_text := ""
    quit_times := QUIT_TIMES
    term_width := 80
    term_height := 24 }

/-- `sampleE` with the cursor at the end of row 0 (position `(5, 0)`). -/
def sampleEEnd : EditorS := { sampleE with cursor_position := ⟨5, 0⟩ }

/-- `sampleE` with the cursor at `(100, 40)` and a stale offset, so that
both scroll branches fire. -/
def sampleScrollE : EditorS :=
  { sampleE with cursor_position := ⟨100, 40⟩, offset := ⟨3, 7⟩ }

/-! ## Theorems -/

/-- C4: for every cursor position and every prior offset, after `scroll`
runs with terminal width ≥ 1 and height ≥ 1 the cursor lies inside the
visible window. -/
theorem scroll_puts_cursor_in_window (e : EditorS)
    (hw : 1 ≤ e.term_width) (hh : 1 ≤ e.term_height) :
    (scroll e).offset.y ≤ e.cursor_position.y ∧
    e.cursor_position.y < (scroll e).offset.y + e.term_height ∧
    (scroll e).offset.x ≤ e.cursor_position.x ∧
    e.cursor_position.x < (scroll e).offset.x + e.term_width := by
  unfold scroll
  dsimp only
  split_ifs <;> refine ⟨?_, ?_, ?_, ?_⟩ <;> omega

/-- Witness for C4 at a concrete state: cursor far outside the prior
window, 80×24 terminal. -/
theorem scroll_puts_cursor_in_window_witness :
    1 ≤ sampleScrollE.term_width ∧ 1 ≤ sampleScrollE.term_height ∧
    ((scroll sampleScrollE).offset.y ≤ sampleScrollE.cursor_position.y ∧
     sampleScrollE.cursor_position.y <
       (scroll sampleScrollE).offset.y + sampleScrollE.term_height ∧
     (scroll sampleScrollE).offset.x ≤ sampleScrollE.cursor_position.x ∧
     sampleScrollE.cursor_position.x <
       (scroll sampleScrollE).offset.x + sampleScrollE.term_width) :=
  ⟨by decide, by decide,
    scroll_puts_cursor_in_window sampleScrollE (by decide) (by decide)⟩

/-- The primary move never takes `y` past one-past-the-last-row. -/
theorem moveStep_y_le (e : EditorS) (key : Key)
    (h : e.cursor_position.y ≤ e.document.len) :
    (moveStep e key).y ≤ e.document.len := by
  unfold moveStep
  cases key <;> dsimp only <;> (try split_ifs) <;>
    (try dsimp only) <;> omega

/-- The final clamp bounds `x` by the width of the new row. -/
theorem moveCursor_x_le (e : EditorS) (key : Key) :
    (moveCursor e key).cursor_position.x ≤
      rowLenAt e.document (moveCursor e key).cursor_position.y := by
  unfold moveCursor
  dsimp only
  split_ifs <;> omega

/-- C3: `move_cursor` preserves cursor validity: starting from any state
with `cursor.y ≤ document.len()`, every key leaves `cursor.y ≤
document.len()` and `cursor.x` at most the length of the row at the new
`cursor.y` (taken as 0 when no row exists there). -/
theorem move_cursor_preserves_validity (e : EditorS) (key : Key)
    (h : e.cursor_position.y ≤ e.document.len) :
    (moveCursor e key).cursor_position.y ≤ (moveCursor e key).document.len ∧
    (moveCursor e key).cursor_position.x ≤
      rowLenAt (moveCursor e key).document (moveCursor e key).cursor_position.y := by
  refine ⟨?_, moveCursor_x_le e key⟩
  show (moveStep e key).y ≤ e.document.len
  exact moveStep_y_le e key h

/-- Witness for C3: `PageDown` from the origin of the sample editor. -/
theorem move_cursor_preserves_validity_witness :
    sampleE.cursor_position.y ≤ sampleE.document.len ∧
    ((moveCursor sampleE Key.pageDown).cursor_position.y ≤
       (moveCursor sampleE Key.pageDown).document.len ∧
     (moveCursor sampleE Key.pageDown).cursor_position.x ≤
       rowLenAt (moveCursor sampleE Key.pageDown).document
         (moveCursor sampleE Key.pageDown).cursor_position.y) :=
  ⟨by decide, move_cursor_preserves_validity sampleE Key.pageDown (by decide)⟩

/-- A confirming Ctrl-Q press: while the counter is positive and the
document dirty, warn and decrement. -/
theorem processCtrlQ_warn (s : EditorS) (h1 : 0 < s.quit_times)
    (h2 : s.document.is_dirty = true) :
    processCtrlQ s =
      { s with
        status_text := ctrlQWarning s.quit_times,
        quit_times := s.quit_times - 1 } := by
  unfold processCtrlQ
  rw [if_pos ⟨h1, h2⟩]

/-- A Ctrl-Q press with the counter exhausted sets the quit flag. -/
theorem processCtrlQ_quit (s : EditorS) (h : s.quit_times = 0) :
    processCtrlQ s = scroll { s with shld_quit := true } := by
  unfold processCtrlQ
  rw [if_neg]
  simp [h]

/-- C1 counterexample: on the sample dirty document with the default quit
counter, the third Ctrl-Q press still leaves `shld_quit` false (the claim
says the third press quits). -/
theorem ctrlQ_third_press_no_quit :
    (processCtrlQ (processCtrlQ (processCtrlQ sampleE))).shld_quit = false := by
  decide

/-- C1 (amended): on a dirty document with the default quit counter (3),
the first three Ctrl-Q presses leave `shld_quit` false, decrement the
counter (3 → 2 → 1 → 0) and re-arm the warning status message; only the
fourth press sets `shld_quit` true. -/
theorem ctrlQ_quits_on_fourth_press (e : EditorS)
    (hq : e.quit_times = 3) (hd : e.document.is_dirty = true)
    (hs : e.shld_quit = false) :
    (processCtrlQ e).shld_quit = false ∧
    (processCtrlQ e).quit_times = 2 ∧
    (processCtrlQ e).status_text = ctrlQWarning 3 ∧
    (processCtrlQ (processCtrlQ e)).shld_quit = false ∧
    (processCtrlQ (processCtrlQ e)).quit_times = 1 ∧
    (processCtrlQ (processCtrlQ e)).status_text = ctrlQWarning 2 ∧
    (processCtrlQ (processCtrlQ (processCtrlQ e))).shld_quit = false ∧
    (processCtrlQ (processCtrlQ (processCtrlQ e))).quit_times = 0 ∧
    (processCtrlQ (processCtrlQ (processCtrlQ e))).status_text = ctrlQWarning 1 ∧
    (processCtrlQ (processCtrlQ (processCtrlQ (processCtrlQ e)))).shld_quit
      = true := by
  obtain ⟨sq, cp, doc, off, st, qt, tw, th⟩ := e
  dsimp only at hq hd hs
  subst hq
  subst hs
  have hsb : ∀ s : EditorS, (scroll s).shld_quit = s.shld_quit := fun _ => rfl
  refine ⟨?_, ?_, ?_, ?_, ?_, ?_, ?_, ?_, ?_, ?_⟩ <;>
    simp [processCtrlQ, hd, hsb]

/-- Witness for C1 (amended) at the sample editor. -/
theorem ctrlQ_quits_on_fourth_press_witness :
    sampleE.quit_times = 3 ∧ sampleE.document.is_dirty = true ∧
    sampleE.shld_quit = false ∧
    ((processCtrlQ sampleE).shld_quit = false ∧
     (processCtrlQ sampleE).quit_times = 2 ∧
     (processCtrlQ sampleE).status_text = ctrlQWarning 3 ∧
     (processCtrlQ (processCtrlQ sampleE)).shld_quit = false ∧
     (processCtrlQ (processCtrlQ sampleE)).quit_times = 1 ∧
     (processCtrlQ (processCtrlQ sampleE)).status_text = ctrlQWarning 2 ∧
     (processCtrlQ (processCtrlQ (processCtrlQ sampleE))).shld_quit = false ∧
     (processCtrlQ (processCtrlQ (processCtrlQ sampleE))).quit_times = 0 ∧
     (processCtrlQ (processCtrlQ (processCtrlQ sampleE))).status_text
       = ctrlQWarning 1 ∧
     (processCtrlQ (processCtrlQ (processCtrlQ (processCtrlQ sampleE)))).shld_quit
       = true) :=
  ⟨rfl, rfl, rfl,
    ctrlQ_quits_on_fourth_press sampleE rfl rfl rfl⟩

/-- C2: the Backspace arm of `prompt` truncates at
`byte length - 1`, which falls strictly inside the UTF-8 encoding of a
multi-byte final character: on the accumulated string `"é"` (U+00E9, two
bytes) `String::truncate` panics (modelled as `none`), while on an ASCII
string it does remove exactly the last character. -/
theorem prompt_backspace_panics_on_multibyte :
    promptBackspace [Char.ofNat 233] = none ∧
    promptBackspace "ab".data = some "a".data ∧
    promptBackspace [] = some [] := by
  decide

/-- C6: processing Backspace away from the document origin is exactly
`move_cursor(Left)` followed by `Document.delete` at the resulting cursor
position; at the origin it changes nothing. -/
theorem backspace_is_move_left_then_delete (e : EditorS) :
    (e.cursor_position ≠ ⟨0, 0⟩ →
      processBackspace e =
        { moveCursor e Key.left with
          document :=
            (moveCursor e Key.left).document.delete
              (moveCursor e Key.left).cursor_position }) ∧
    (e.cursor_position = ⟨0, 0⟩ → processBackspace e = e) := by
  constructor
  · intro hne
    have h : 0 < e.cursor_position.x ∨ 0 < e.cursor_position.y := by
      by_contra hc
      push_neg at hc
      obtain ⟨hcx, hcy⟩ := hc
      apply hne
      have hx : e.cursor_position.x = 0 := by omega
      have hy : e.cursor_position.y = 0 := by omega
      calc e.cursor_position
          = ⟨e.cursor_position.x, e.cursor_position.y⟩ := rfl
        _ = ⟨0, 0⟩ := by rw [hx, hy]
    unfold processBackspace
    rw [if_pos h]
  · intro h0
    unfold processBackspace
    rw [if_neg (by rw [h0]; decide)]

/-- Witness for C6: Backspace at the end of row 0 of the sample document,
and at the origin. -/
theorem backspace_is_move_left_then_delete_witness :
    sampleEEnd.cursor_position ≠ ⟨0, 0⟩ ∧
    processBackspace sampleEEnd =
      { moveCursor sampleEEnd Key.left with
        document :=
          (moveCursor sampleEEnd Key.left).document.delete
            (moveCursor sampleEEnd Key.left).cursor_position } ∧
    sampleE.cursor_position = ⟨0, 0⟩ ∧
    processBackspace sampleE = sampleE :=
  ⟨by decide,
    (backspace_is_move_left_then_delete sampleEEnd).1 (by decide),
    rfl,
    (backspace_is_move_left_then_delete sampleE).2 rfl⟩

/-- Beyond the last row there is no row, so the width read by
`move_cursor` is 0. -/
theorem rowLenAt_of_le (d : Document) (y : Nat) (h : d.len ≤ y) :
    rowLenAt d y = 0 := by
  unfold rowLenAt Document.row
  rw [List.get?_eq_none.mpr h]

/-- C7: `move_cursor(Right)` at the last column of a non-final row
followed by `move_cursor(Left)` returns the cursor to its original
position; at the true document boundaries (origin for Left,
one-past-the-last-row for Right) movement saturates instead of
wrapping. -/
theorem right_left_inverse_and_saturation :
    (∀ e : EditorS,
      e.cursor_position.x = rowLenAt e.document e.cursor_position.y →
      e.cursor_position.y < e.document.len →
      (moveCursor (moveCursor e Key.right) Key.left).cursor_position
        = e.cursor_position) ∧
    (∀ e : EditorS, e.cursor_position = ⟨0, 0⟩ →
      (moveCursor e Key.left).cursor_position = ⟨0, 0⟩) ∧
    (∀ e : EditorS, e.cursor_position = ⟨0, e.document.len⟩ →
      (moveCursor e Key.right).cursor_position = ⟨0, e.document.len⟩) := by
  refine ⟨?_, ?_, ?_⟩
  · intro e hx hy
    have h1 : moveCursor e Key.right =
        { e with cursor_position := ⟨0, e.cursor_position.y + 1⟩ } := by
      simp [moveCursor, moveStep, hx, hy]
    have h2 : moveCursor
        { e with cursor_position := ⟨0, e.cursor_position.y + 1⟩ } Key.left =
        { e with
          cursor_position :=
            ⟨rowLenAt e.document e.cursor_position.y, e.cursor_position.y⟩ } := by
      simp [moveCursor, moveStep]
    rw [h1, h2, ← hx]
  · intro e h0
    simp [moveCursor, moveStep, h0]
  · intro e h0
    simp [moveCursor, moveStep, h0,
      rowLenAt_of_le e.document e.document.len le_rfl]

/-- Witness for C7: the inverse pair at the end of row 0 of the sample
document, saturation of Left at the origin, and saturation of Right one
past the last row. -/
theorem right_left_inverse_and_saturation_witness :
    (sampleEEnd.cursor_position.x
        = rowLenAt sampleEEnd.document sampleEEnd.cursor_position.y ∧
      sampleEEnd.cursor_position.y < sampleEEnd.document.len ∧
      (moveCursor (moveCursor sampleEEnd Key.right) Key.left).cursor_position
        = sampleEEnd.cursor_position) ∧
    (moveCursor sampleE Key.left).cursor_position = ⟨0, 0⟩ ∧
    (moveCursor { sampleE with cursor_position := ⟨0, 2⟩ } Key.right).cursor_position
      = ⟨0, 2⟩ :=
  ⟨⟨by decide, by decide,
      right_left_inverse_and_saturation.1 sampleEEnd (by decide) (by decide)⟩,
    right_left_inverse_and_saturation.2.1 sampleE rfl,
    right_left_inverse_and_saturation.2.2
      { sampleE with cursor_position := ⟨0, 2⟩ } rfl⟩

/-- A terminated prompt loop under the no-op callback leaves the document
untouched (only the status message is re-armed each iteration). -/
theorem promptRunCb_noop_document (label : String) :
    ∀ (keys : List Key) (acc : List Char) (e e1 : EditorS) (a : List Char),
      promptRunCb label noopCb keys acc e = some (e1, a) →
      e1.document = e.document := by
  intro keys
  induction keys with
  | nil => intro acc e e1 a h; simp [promptRunCb] at h
  | cons k ks ih =>
    intro acc e e1 a h
    unfold promptRunCb at h
    dsimp only at h
    cases hk : promptKey acc k with
    | cont acc2 =>
      rw [hk] at h
      dsimp only at h
      exact ih acc2
        (noopCb { e with status_text := label ++ String.mk acc } k acc2) e1 a h
    | exit acc2 =>
      rw [hk] at h
      simp only [Option.some.injEq, Prod.mk.injEq] at h
      rw [← h.1]
    | panic =>
      rw [hk] at h
      simp at h

/-- Inversion of `promptCb`: a completed prompt came from a completed loop
run, whose final state it returns with the status message blanked. -/
theorem promptCb_inv (label : String) (cb : EditorS → Key → List Char → EditorS)
    (keys : List Key) (e e1 : EditorS) (r : Option (List Char))
    (h : promptCb label cb keys e = some (e1, r)) :
    ∃ e2 a, promptRunCb label cb keys [] e = some (e2, a) ∧
      e1 = { e2 with status_text := "" } ∧
      r = (if a.isEmpty then none else some a) := by
  unfold promptCb at h
  obtain ⟨⟨e2, a⟩, hrun, heq⟩ := Option.map_eq_some'.mp h
  dsimp only at heq
  simp only [Prod.mk.injEq] at heq
  exact ⟨e2, a, hrun, heq.1.symm, heq.2.symm⟩

/-- C8: whenever the supplied keys end the prompt loop, `prompt` returns
`none` exactly when the accumulated string is empty at exit (covering both
Esc and committing an empty string), and otherwise returns the final
accumulated string. -/
theorem prompt_returns_none_iff_empty (label : String)
    (cb : EditorS → Key → List Char → EditorS) (keys : List Key)
    (e e1 : EditorS) (acc : List Char)
    (h : promptRunCb label cb keys [] e = some (e1, acc)) :
    ∃ r, promptCb label cb keys e = some ({ e1 with status_text := "" }, r) ∧
      (r = none ↔ acc = []) ∧
      (∀ s, r = some s → s = acc) := by
  refine ⟨if acc.isEmpty then none else some acc, ?_, ?_, ?_⟩
  · unfold promptCb
    rw [h]
    rfl
  · cases acc <;> simp
  · intro s hs
    cases acc with
    | nil => simp at hs
    | cons a t =>
      simp only [List.isEmpty_cons, if_neg] at hs
      simp at hs
      exact hs.symm

/-- Witness for C8: typing `a` then Enter commits the one-character
string. -/
theorem prompt_returns_none_iff_empty_witness :
    promptRunCb "" noopCb [Key.char 'a', Key.char '\n'] [] sampleE
      = some ({ sampleE with status_text := "a" }, ['a']) ∧
    ∃ r, promptCb "" noopCb [Key.char 'a', Key.char '\n'] sampleE
        = some ({ { sampleE with status_text := "a" } with status_text := "" }, r) ∧
      (r = none ↔ (['a'] : List Char) = []) ∧
      (∀ s, r = some s → s = ['a']) :=
  ⟨by decide,
    prompt_returns_none_iff_empty "" noopCb [Key.char 'a', Key.char '\n']
      sampleE { sampleE with status_text := "a" } ['a'] (by decide)⟩

/-- C5: Ctrl-S on a document with no file name, when the save-as prompt
yields no input, sets the status message to `"Save aborted."` and returns
without invoking `Document.save`, leaving the file name unset and the
dirty flag still true. -/
theorem save_abort_on_empty_prompt (e e1 : EditorS) (keys : List Key) (ok : Bool)
    (hn : e.document.file_name = none) (hd : e.document.dirty = true)
    (hp : promptCb "Save as: " noopCb keys e = some (e1, none)) :
    save e keys ok = some ({ e1 with status_text := "Save aborted." }, false) ∧
    e1.document.file_name = none ∧
    e1.document.dirty = true := by
  have hdoc : e1.document = e.document := by
    obtain ⟨e2, a, hrun, he1, _⟩ := promptCb_inv _ _ _ _ _ _ hp
    rw [he1]
    exact promptRunCb_noop_document _ keys [] e e2 a hrun
  refine ⟨?_, ?_, ?_⟩
  · unfold save
    rw [if_pos (by rw [hn]; rfl), hp]
    simp
  · rw [hdoc]; exact hn
  · rw [hdoc]; exact hd

/-- Witness for C5: Esc at the save-as prompt of the sample editor. -/
theorem save_abort_on_empty_prompt_witness :
    sampleE.document.file_name = none ∧
    sampleE.document.dirty = true ∧
    promptCb "Save as: " noopCb [Key.esc] sampleE
      = some ({ { sampleE with status_text := "Save as: " } with
                  status_text := "" }, none) ∧
    (save sampleE [Key.esc] false
        = some ({ { { sampleE with status_text := "Save as: " } with
                      status_text := "" } with
                    status_text := "Save aborted." }, false) ∧
     ({ { sampleE with status_text := "Save as: " } with
          status_text := "" } : EditorS).document.file_name = none ∧
     ({ { sampleE with status_text := "Save as: " } with
          status_text := "" } : EditorS).document.dirty = true) :=
  ⟨rfl, rfl, by decide,
    save_abort_on_empty_prompt sampleE
      { { sampleE with status_text := "Save as: " } with status_text := "" }
      [Key.esc] false rfl rfl (by decide)⟩

/-- C9: with one path argument whose open fails, the editor starts on the
empty default document with the `ERR:` status message naming the path;
with zero arguments it starts on the empty document with the help
message. -/
theorem editor_default_open_failure (prog path : String)
    (openResult : String → Option Document) (tw th : Nat)
    (hfail : openResult path = none) :
    ((editorDefault [prog, path] openResult tw th).document = Document.default ∧
     (editorDefault [prog, path] openResult tw th).status_text
       = "ERR: Could not open file: " ++ path) ∧
    ((editorDefault [prog] openResult tw th).document = Document.default ∧
     (editorDefault [prog] openResult tw th).status_text
       = "HELP: Ctrl-Q = quit") := by
  unfold editorDefault
  simp [hfail]

/-- Witness for C9: a failing open of `missing.txt`. -/
theorem editor_default_open_failure_witness :
    ((editorDefault ["typotamer", "missing.txt"] (fun _ => none) 80 24).document
        = Document.default ∧
     (editorDefault ["typotamer", "missing.txt"] (fun _ => none) 80 24).status_text
        = "ERR: Could not open file: " ++ "missing.txt") ∧
    ((editorDefault ["typotamer"] (fun _ => none) 80 24).document
        = Document.default ∧
     (editorDefault ["typotamer"] (fun _ => none) 80 24).status_text
        = "HELP: Ctrl-Q = quit") :=
  editor_default_open_failure "typotamer" "missing.txt" (fun _ => none) 80 24 rfl

/-- C10: when the search prompt is cancelled with Esc, the final-find
branch is skipped: the editor keeps the cursor and (when the cursor is
already inside the window) the viewport offset that the live callback
last set, and the status message is blank — in particular no
search-failed message is shown. -/
theorem ctrlF_esc_keeps_last_match (e e1 : EditorS) (keys : List Key)
    (hp : promptCb "Search: " searchCallback keys e = some (e1, none))
    (hin : e1.offset.y ≤ e1.cursor_position.y ∧
           e1.cursor_position.y < e1.offset.y + e1.term_height ∧
           e1.offset.x ≤ e1.cursor_position.x ∧
           e1.cursor_position.x < e1.offset.x + e1.term_width) :
    processCtrlF e keys = some (scroll e1) ∧
    (scroll e1).cursor_position = e1.cursor_position ∧
    (scroll e1).offset = e1.offset ∧
    e1.status_text = "" := by
  obtain ⟨h1, h2, h3, h4⟩ := hin
  refine ⟨?_, rfl, ?_, ?_⟩
  · unfold processCtrlF
    rw [hp]
  · unfold scroll
    dsimp only
    rw [if_neg (by omega), if_neg (by omega), if_neg (by omega),
      if_neg (by omega)]
  · obtain ⟨e2, a, _, he1, _⟩ := promptCb_inv _ _ _ _ _ _ hp
    rw [he1]

/-- Witness for C10: typing `w` moves the live search to `(0, 1)` in the
sample document; Esc then leaves the cursor there with a blank status. -/
theorem ctrlF_esc_keeps_last_match_witness :
    promptCb "Search: " searchCallback [Key.char 'w', Key.esc] sampleE
      = some ({ sampleE with cursor_position := ⟨0, 1⟩ }, none) ∧
    sampleE.cursor_position = ⟨0, 0⟩ ∧
    (processCtrlF sampleE [Key.char 'w', Key.esc]
        = some (scroll { sampleE with cursor_position := ⟨0, 1⟩ }) ∧
     (scroll { sampleE with cursor_position := ⟨0, 1⟩ }).cursor_position
        = ({ sampleE with cursor_position := ⟨0, 1⟩ } : EditorS).cursor_position ∧
     (scroll { sampleE with cursor_position := ⟨0, 1⟩ }).offset
        = ({ sampleE with cursor_position := ⟨0, 1⟩ } : EditorS).offset ∧
     ({ sampleE with cursor_position := ⟨0, 1⟩ } : EditorS).status_text = "") :=
  ⟨by decide, rfl,
    ctrlF_esc_keeps_last_match sampleE
      { sampleE with cursor_position := ⟨0, 1⟩ }
      [Key.char 'w', Key.esc] (by decide) (by decide)⟩

end TypoTamer
